import Mathlib

/-!
Verification development for the BPASS_GridFit repository
(`Target.py`, `GridFit.py`, `BPASSGrid.py`, `ConfigureGrid.py`).

The Python sources are shallowly embedded below.  Numeric values carried by
the catalogs and grids are IEEE doubles in the source; they are represented
here as rationals (every finite double is a rational), and `numpy.sqrt`,
whose result is irrational in general, is abstracted as a function
parameter `sq : ℚ → ℚ` at its single use site (the doublet error
combination); the corresponding real-square-root facts are stated with
`Real.sqrt` in the theorems that need them.  Rational constants are written
with `mkRat` (`mkRat 8 10 = 0.8` and so on) so that comparisons reduce in
the kernel; `mkRat n d = n / d` for `d ≠ 0` (`Rat.mkRat_eq_div`).
`warnings.warn` calls are modelled, where a claim mentions them, as an
extra list of warning strings in the result; `raise`/uncaught exceptions
are modelled with `Except String`.
-/

namespace BPASSFit

/-! ### difflib.SequenceMatcher (Python standard library)

Both `Target.read_flux` and `Fit.translate_line_labels` resolve line labels
with `difflib.SequenceMatcher(None, a, b).ratio()`.  The embedding below
follows CPython's `difflib.py` for `isjunk=None` and `len(b) < 200` (so the
junk set and the autojunk "popular" set are both empty; with an empty junk
set the junk-adjacent extension loops of `find_longest_match` that run
after the dynamic program can never extend the maximal match the DP found,
and are omitted). -/

/-- Indices `j` with `b[j] = c`, ascending: difflib's `b2j` mapping. -/
def b2jIdx (b : List Char) (c : Char) : List Nat :=
  (List.range b.length).filter (fun j => b.getD j ' ' = c)

/-- Lookup in the `j2len` association list, defaulting to 0 (`j2len.get(j-1, 0)`). -/
def j2get (m : List (Nat × Nat)) (j : Nat) : Nat :=
  (m.lookup j).getD 0

/-- One row (one index `i` of `a`) of the `find_longest_match` dynamic
program: folds over the occurrence indices of `a[i]` in `b`, building the
fresh `newj2len` row and updating the running best `(besti, bestj,
bestsize)`. -/
def flmStep (a b : List Char) (blo bhi : Nat)
    (acc : List (Nat × Nat) × (Nat × Nat × Nat)) (i : Nat) :
    List (Nat × Nat) × (Nat × Nat × Nat) :=
  let j2len := acc.1
  let js := (b2jIdx b (a.getD i ' ')).filter (fun j => blo ≤ j && j < bhi)
  js.foldl
    (fun st j =>
      let k := if j = 0 then 1 else j2get j2len (j - 1) + 1
      let best := st.2
      let best := if k > best.2.2 then (i + 1 - k, j + 1 - k, k) else best
      ((j, k) :: st.1, best))
    ([], acc.2)

/-- difflib `find_longest_match` on the windows `a[alo:ahi]`, `b[blo:bhi]`
(no junk): returns `(besti, bestj, bestsize)`. -/
def findLongestMatch (a b : List Char) (alo ahi blo bhi : Nat) : Nat × Nat × Nat :=
  ((List.range' alo (ahi - alo)).foldl (flmStep a b blo bhi) ([], (alo, blo, 0))).2

/-- Total size of the matching blocks found by difflib's recursive
decomposition (`get_matching_blocks`): the longest match splits the window
in two, which are decomposed recursively.  The fuel argument dominates the
recursion depth (each recursive window is strictly shorter, so
`a.length + b.length + 1` fuel always suffices at the top call). -/
def matchTotal (a b : List Char) : Nat → Nat → Nat → Nat → Nat → Nat
  | 0, _, _, _, _ => 0
  | fuel + 1, alo, ahi, blo, bhi =>
    let m := findLongestMatch a b alo ahi blo bhi
    let i := m.1
    let j := m.2.1
    let k := m.2.2
    if k = 0 then 0
    else
      k + matchTotal a b fuel alo i blo j + matchTotal a b fuel (i + k) ahi (j + k) bhi

/-- difflib `SequenceMatcher(None, a, b).ratio() = 2*M / (len(a)+len(b))`,
where `M` is the total size of the matching blocks (`ratio` returns 1.0 on
two empty sequences). -/
def ratioSM (a b : List Char) : ℚ :=
  if a.length + b.length = 0 then 1
  else mkRat (2 * matchTotal a b (a.length + b.length + 1) 0 a.length 0 b.length)
        (a.length + b.length)

/-- Python's substring containment test `sub in s`. -/
def hasSub (s sub : List Char) : Bool :=
  match s with
  | [] => sub.isEmpty
  | _ :: t => sub.isPrefixOf s || hasSub t sub

/-! ### Target.py — class Target

The target catalog (`self.df`) is a pandas DataFrame; `read_flux` reads
`self.df[col].loc[self.df['ID'] == self.id].values[0]`, i.e. the value of
the named column in the row of the given target.  The embedding collapses
that row selection: a `Catalog` is the ordered association of column name
to that target's value, and the `ID` column is part of it (so it also
takes part in the fuzzy-matching loop over `self.df.keys()`, exactly as in
the source).  A missing column raises a pandas `KeyError` naming the key,
modelled as `Except.error ("KeyError: " ++ name)`. -/

abbrev Catalog := List (String × ℚ)

/-- Column names of the catalog, in order (`self.df.keys()`). -/
def catKeys (df : Catalog) : List String :=
  df.map Prod.fst

/-- Column access `self.df[c].loc[self.df['ID'] == self.id].values[0]`. -/
def colVal (df : Catalog) (c : String) : Except String ℚ :=
  match df.lookup c with
  | some v => .ok v
  | none => .error ("KeyError: " ++ c)

/-- Fuzzy-match loop of `Target.read_flux` (lines 71-74 of Target.py):
`for k in self.df.keys(): if SequenceMatcher(None, k, l).ratio() > 0.8: l = k`.
Note that `l` is reassigned inside the loop, so later columns are compared
against the current substitute, not the requested label. -/
def fuzzyResolve (keys : List String) (l : String) : String :=
  keys.foldl (fun cur k => if ratioSM k.data cur.data > mkRat 8 10 then k else cur) l

/-- Label resolution of `Target.read_flux`: the fuzzy loop only runs when
the label is not a column (`if l not in self.df.columns`).  The
`except ValueError: raise ValueError(...)` around the loop is dead code
(nothing in the loop raises `ValueError`), so resolution itself never
fails. -/
def resolveLabel (keys : List String) (l : String) : String :=
  if l ∈ keys then l else fuzzyResolve keys l

/-- OII-3727 blend recognition (Target.py line 78):
`'372' in l and ('O2' in l or 'o2' in l or 'OII' in l or 'oII' in l)`. -/
def isOIIBlend (l : String) : Bool :=
  hasSub l.data "372".data &&
    (hasSub l.data "O2".data || hasSub l.data "o2".data ||
     hasSub l.data "OII".data || hasSub l.data "oII".data)

/-- SII blend recognition (Target.py line 86):
`'671' in l and ('S2' in l or 's2' in l or 'SII' in l or 'sII' in l)`. -/
def isSIIBlend (l : String) : Bool :=
  hasSub l.data "671".data &&
    (hasSub l.data "S2".data || hasSub l.data "s2".data ||
     hasSub l.data "SII".data || hasSub l.data "sII".data)

/-- One iteration of the `for l in self.lines` loop of `Target.read_flux`:
resolve the label, then either blend the OII doublet (sum the two fluxes,
errors in quadrature through `sq`, modelling `np.sqrt`), blend the SII
doublet from the `s2_6718`/`s2_6733` columns, or read the flux column and
its `_err_new` error column.  The warnings emitted on substitution and
blending carry no data and are elided here. -/
def readLine (sq : ℚ → ℚ) (df : Catalog) (l0 : String) : Except String (ℚ × ℚ) :=
  let l := resolveLabel (catKeys df) l0
  if isOIIBlend l then
    match colVal df "o2_3726", colVal df "o2_3729",
        colVal df "o2_3726_err_new", colVal df "o2_3729_err_new" with
    | .ok f1, .ok f2, .ok e1, .ok e2 => .ok (f1 + f2, sq (e1 ^ 2 + e2 ^ 2))
    | .error s, _, _, _ => .error s
    | _, .error s, _, _ => .error s
    | _, _, .error s, _ => .error s
    | _, _, _, .error s => .error s
  else if isSIIBlend l then
    match colVal df "s2_6718", colVal df "s2_6733",
        colVal df "s2_6718_err_new", colVal df "s2_6733_err_new" with
    | .ok f1, .ok f2, .ok e1, .ok e2 => .ok (f1 + f2, sq (e1 ^ 2 + e2 ^ 2))
    | .error s, _, _, _ => .error s
    | _, .error s, _, _ => .error s
    | _, _, .error s, _ => .error s
    | _, _, _, .error s => .error s
  else
    match colVal df l, colVal df (l ++ "_err_new") with
    | .ok f, .ok e => .ok (f, e)
    | .error s, _ => .error s
    | _, .error s => .error s

/-- The accumulation loop of `Target.read_flux`, building the per-line
flux list `f` and error list `err`; the first uncaught exception aborts
the whole call. -/
def read_flux_entries (sq : ℚ → ℚ) (df : Catalog) : List String → Except String (List ℚ × List ℚ)
  | [] => .ok ([], [])
  | l :: rest =>
    match readLine sq df l, read_flux_entries sq df rest with
    | .ok (f, e), .ok (fs, es) => .ok (f :: fs, e :: es)
    | .error s, _ => .error s
    | _, .error s => .error s

/-- `Target.lines_to_fit`: starting from `fit_lines = [False]*len(lines)`,
set `fit_lines[i] = True` whenever `flux[i]/error[i] > snr` (strict).
`n` is `len(self.lines)`; by construction the flux and error lists have
that same length. -/
def lines_to_fit (n : Nat) (flux error : List ℚ) (snr : ℚ) : List Bool :=
  (List.range n).foldl
    (fun mask i => if flux.getD i 0 / error.getD i 0 > snr then mask.set i true else mask)
    (List.replicate n false)

/-- Keep the entries whose mask bit is set (the list comprehension
`[flux[i] for i, fit in enumerate(fit_lines) if fit]`). -/
def maskFilter (mask : List Bool) (xs : List ℚ) : List ℚ :=
  ((mask.zip xs).filter (fun p => p.1)).map (fun p => p.2)

/-- `Target.filter_flux`: if `self.fit_lines is None` it warns and leaves
the flux and error lists untouched; otherwise it keeps the entries marked
`True`.  Result: the new flux list, the new error list, and the warnings
emitted. -/
def filter_flux (fit_lines : Option (List Bool)) (flux error : List ℚ) :
    List ℚ × List ℚ × List String :=
  match fit_lines with
  | none => (flux, error, ["No lines to fit. Please check the input DataFrame and lines."])
  | some m => (maskFilter m flux, maskFilter m error, [])

/-- `Target.read_flux` end to end: accumulate flux/error per line, then
`self.lines_to_fit()` and `self.filter_flux()` (with
`fit_lines = [False]*len(lines)` set in `__init__`, so the mask is present
whenever the line list itself is), returning the filtered lists. -/
def read_flux (sq : ℚ → ℚ) (df : Catalog) (lines : List String) (snr : ℚ) :
    Except String (List ℚ × List ℚ) :=
  match read_flux_entries sq df lines with
  | .error s => .error s
  | .ok (f, e) =>
    let mask := lines_to_fit lines.length f e snr
    let r := filter_flux (some mask) f e
    .ok (r.1, r.2.1)

/-! ### GridFit.py — class Fit -/

abbrev Summary := List (String × String)

/-- Python `str.lower()` (the labels in play are ASCII): lowercase every
character. -/
def pyLower (s : String) : String :=
  ⟨s.data.map Char.toLower⟩

/-- One slot of the loop of `Fit.translate_line_labels`: when the line is
not one of the model's lines, every model line `k` with
`SequenceMatcher(None, k.lower(), line.lower()).ratio() >= 0.4` overwrites
`self.lines[i]` in turn (the comparison is always against the original
`line`, so the last qualifying model line wins).  The
`except ValueError: raise ValueError(...)` around the loop is dead code:
nothing in the loop raises `ValueError`, so a line with no qualifying
model line is silently left in place. -/
def translate_one (modelLines : List String) (line : String) : String :=
  if line ∈ modelLines then line
  else
    modelLines.foldl
      (fun cur k =>
        if ratioSM (pyLower k).data (pyLower line).data ≥ mkRat 4 10 then k else cur)
      line

/-- `Fit.translate_line_labels` over the whole `self.lines` list. -/
def translate_line_labels (modelLines : List String) (lines : List String) : List String :=
  lines.map (translate_one modelLines)

/-- State of a `Fit` object (the fields touched by `run_fit`,
`show_corner` and `save_results`); `R` is the type of the external
fitter's result object. -/
structure FitState (R : Type) where
  lines : List String
  flux : List ℚ
  error : List ℚ
  path : String
  id : Int
  v : Int
  snr : ℚ
  results : Option R
  summary : Option Summary

/-- The basename handed to the external fitter,
`self.path + f'{self.id:.0f}/v{self.v}_{self.id:.0f}'`. -/
def fitBasename {R : Type} (st : FitState R) : String :=
  st.path ++ toString st.id ++ "/v" ++ toString st.v ++ "_" ++ toString st.id

/-- `Fit.run_fit`: when the (SNR-filtered) line list is non-empty, ensure
the output directory exists (`os.makedirs` when missing), run the external
fitter and store its summarised result; when it is empty, warn and return
`None` without touching the filesystem.  `dirs` is the set of existing
directories; the result is the new state, the new directory set, the
warnings emitted, and the returned value. -/
def run_fit {R : Type} (fitter : List String → List ℚ → List ℚ → String → R)
    (summarise : R → Summary) (dirs : List String) (st : FitState R) :
    FitState R × List String × List String × Option Summary :=
  if st.lines ≠ [] then
    let dirs' := if st.path ∈ dirs then dirs else st.path :: dirs
    let r := fitter st.lines st.flux st.error (fitBasename st)
    let s := summarise r
    ({ st with results := some r, summary := some s }, dirs', [], some s)
  else
    (st, dirs,
      ["No lines to fit. Consider lowering the SNR threshold in the target object or providing a list of lines to fit."],
      none)

/-- `Fit.show_corner`: warns and no-ops when no results exist; otherwise
delegates to `self.results.show_triangle()` (the Boolean records whether
the plot call happened). -/
def show_corner {R : Type} (st : FitState R) : List String × Bool :=
  match st.results with
  | none => (["No results to show."], false)
  | some _ => ([], true)

/-- The augmentation of the summary in `Fit.save_results` (dict updates
`summary['target_id'] = ...` and so on, modelled as appended key/value
pairs). -/
def summaryAug {R : Type} (st : FitState R) (s : Summary) : Summary :=
  s ++ [("target_id", toString st.id), ("version", toString st.v),
        ("lines", String.intercalate ", " st.lines),
        ("snr", toString st.snr),
        ("flux", String.intercalate ", " (st.flux.map toString)),
        ("error", String.intercalate ", " (st.error.map toString))]

/-- `Fit.save_results`: warns and returns when no results exist, leaving
state and filesystem alone; otherwise augments the summary and writes the
one-row CSV `self.path + f'{id:.0f}/v{v}_{id:.0f}_summary.csv'` (`files`
is the list of written files). -/
def save_results {R : Type} (st : FitState R) (files : List String) :
    FitState R × List String × List String :=
  match st.results with
  | none => (st, files, ["No results to save. Please run the fit first."])
  | some _ =>
    let s := summaryAug st (st.summary.getD [])
    let name := st.path ++ toString st.id ++ "/v" ++ toString st.v ++ "_"
        ++ toString st.id ++ "_summary.csv"
    ({ st with summary := some s }, name :: files, [])

/-! ### BPASSGrid.py — class Grid -/

/-- Python values, as far as the default-argument expression of
`Grid.__init__` needs them. -/
inductive PyVal where
  | pstr : String → PyVal
  | plist : List PyVal → PyVal

/-- Python hashability: lists are unhashable, strings are hashable. -/
def pyHashable : PyVal → Bool
  | .plist _ => false
  | .pstr _ => true

/-- A Python set display `{e1, ..., en}`: every element is hashed on
insertion, so an unhashable element raises `TypeError`. -/
def pySetLit (xs : List PyVal) : Except String (List PyVal) :=
  if xs.all pyHashable then .ok xs else .error "TypeError: unhashable type: list"

/-- The default value of the `pars` parameter of `Grid.__init__`
(BPASSGrid.py line 19): the set literal `{['CO', 'LOGZ', 'LOGU', 'XI',
'NH']}`, whose sole element is a list. -/
def gridDefaultPars : Except String (List PyVal) :=
  pySetLit [PyVal.plist [.pstr "CO", .pstr "LOGZ", .pstr "LOGU", .pstr "XI", .pstr "NH"]]

/-- Evaluation of `Grid.__init__`'s default arguments, which Python
performs once when the `def` statement executes, i.e. while the `class
Grid` body (and hence the import of BPASSGrid.py) runs; if it raises, the
class is never defined and no instance can ever be constructed. -/
def gridClassDef : Except String Unit :=
  match gridDefaultPars with
  | .ok _ => .ok ()
  | .error s => .error s

/-- Modelled from the spec: the attributes installed by the external
`PI.PIModel.__init__(self, name)` base-class constructor, which the
repository does not contain.  Section 9 of the spec describes the base as
a generic parametrized-model abstraction reused "purely to reuse a shared
parameter/prediction registry" exposing register-parameter,
register-predicted-quantity and predict operations; accordingly it is
modelled as installing the model name and the two registries, and nothing
named `lines`. -/
def piModelInitAttrs : List String :=
  ["name", "parameters", "predictions"]

/-- Python attribute read `self.a`: `AttributeError` when the instance has
no such attribute. -/
def getattrE (attrs : List String) (a : String) : Except String Unit :=
  if a ∈ attrs then .ok () else .error ("AttributeError: " ++ a)

/-- `Grid.abundance_setup` at the attribute level: when `recalculate` is
true, `self.dirs()` reads `self.path` (which `__init__` has not assigned
yet at that point) and then the Gutkin abundance table is read
(`gutkin`); when it is false only the solar constants are set. -/
def abundance_setup (attrs : List String) (gutkin : Except String Unit) (recalc : Bool) :
    Except String Unit :=
  if recalc then
    match getattrE attrs "path" with
    | .error s => .error s
    | .ok _ => gutkin
  else .ok ()

/-- `Grid.__init__` (BPASSGrid.py lines 19-41) followed by the
`read_grid` call it ends with, tracked at the level of instance-attribute
names (values are elided: the claims about this code concern only which
attributes exist).  `base` is the attribute set installed by
`PI.PIModel.__init__`; `gutkin` stands for the Gutkin abundance-table read
performed by `abundance_setup` when `recalc` is true; `gridFile` stands
for the `Table.read` of the grid file.  The `linesArg` parameter is the
constructor's `lines` argument: exactly as in the source, the body never
uses it.  `read_grid` is modelled up to its `for l in self.lines` loop;
the steps after that lookup are not reached in any claim. -/
def grid_init (base : List String) (gutkin gridFile : Except String Unit)
    (pars : List String) (linesArg : List String) (recalc : Bool) :
    Except String (List String) :=
  let attrs := "recalculate" :: base
  match abundance_setup attrs gutkin recalc with
  | .error s => .error s
  | .ok _ =>
    let attrs := "Zsun" :: "Xsun" :: "Ysun" :: attrs
    let attrs := "path" :: "pars" :: "fix" :: attrs
    match gridFile with
    | .error s => .error s
    | .ok _ =>
      let attrs := "grid" :: attrs
      match getattrE attrs "pars", getattrE attrs "parameters" with
      | .ok _, .ok _ =>
        let attrs := "parameter_order" :: attrs
        match getattrE attrs "lines" with
        | .error s => .error s
        | .ok _ => .ok attrs
      | .error s, _ => .error s
      | _, .error s => .error s

/-! ### ConfigureGrid.py — load_grid's SII column derivation -/

/-- ConfigureGrid.load_grid line 137:
`df['s2_6716'] = df['s2_6716_6731']/3.96` (3.96 = 396/100). -/
def s2_6716_col (blend : List ℚ) : List ℚ :=
  blend.map (fun x => x / mkRat 396 100)

/-- ConfigureGrid.load_grid line 138:
`df['s2_6731'] = df['s2_6716']*2.96` (2.96 = 296/100). -/
def s2_6731_col (blend : List ℚ) : List ℚ :=
  (s2_6716_col blend).map (fun x => x * mkRat 296 100)

/-! ### Resolution policy as amended (for comparison with the source) -/

/-- Written from the amended wording of the fitter-side resolution claim,
not from the source: among the model lines whose lowercased similarity to
the lowercased requested line reaches 0.4, the last one is substituted;
when none qualifies the line is kept. -/
def lastQualifyingOrSelf (modelLines : List String) (line : String) : String :=
  ((modelLines.filter fun k =>
      decide (ratioSM (pyLower k).data (pyLower line).data ≥ mkRat 4 10)).getLast?).getD line

/-! ### Helper lemmas -/

/-- Lookup misses exactly when the key is not a column name. -/
lemma lookup_none {df : Catalog} {l : String} (h : l ∉ catKeys df) :
    df.lookup l = none := by
  induction df with
  | nil => rfl
  | cons p t ih =>
    have h1 : l ≠ p.1 := fun he => h (by simp [catKeys, he])
    have h2 : l ∉ catKeys t := fun hm => h (by simp [catKeys] at hm ⊢; exact Or.inr hm)
    simp [List.lookup, beq_false_of_ne h1, ih h2]

/-- When no column clears the 0.8 similarity threshold against the
requested label, the fuzzy loop leaves the label unchanged. -/
lemma fuzzy_no_match : ∀ (keys : List String) (l : String),
    (∀ k ∈ keys, ratioSM k.data l.data ≤ mkRat 8 10) → fuzzyResolve keys l = l := by
  intro keys
  induction keys with
  | nil => intro l _; rfl
  | cons k ks ih =>
    intro l h
    have hk : ¬ (ratioSM k.data l.data > mkRat 8 10) :=
      not_lt.mpr (h k (List.mem_cons_self k ks))
    unfold fuzzyResolve
    rw [List.foldl_cons, if_neg hk]
    exact ih l (fun k2 hk2 => h k2 (List.mem_cons_of_mem k hk2))

lemma getLastD_cons : ∀ (xs : List String) (k cur : String),
    (k :: xs).getLast?.getD cur = xs.getLast?.getD k := by
  intro xs
  induction xs with
  | nil => intro k cur; rfl
  | cons y ys ih =>
    intro k cur
    rw [List.getLast?_cons_cons, ih y cur, ih y k]

/-- A fold that replaces the accumulator by every element satisfying `q`
ends at the last satisfying element (or at the start value). -/
lemma foldl_pick_last (q : String → Prop) [DecidablePred q] :
    ∀ (ks : List String) (cur : String),
      ks.foldl (fun c k => if q k then k else c) cur
        = ((ks.filter fun k => decide (q k)).getLast?).getD cur := by
  intro ks
  induction ks with
  | nil => intro cur; rfl
  | cons k t ih =>
    intro cur
    rw [List.foldl_cons, ih]
    by_cases hq : q k
    · rw [if_pos hq, List.filter_cons_of_pos (by simpa using hq), getLastD_cons]
    · rw [if_neg hq, List.filter_cons_of_neg (by simpa using hq)]

lemma getD_set_self : ∀ (l : List Bool) (i : Nat) (a : Bool), i < l.length →
    (l.set i a).getD i false = a := by
  intro l
  induction l with
  | nil => intro i a h; exact absurd h (by simp)
  | cons x t ih =>
    intro i a h
    cases i with
    | zero => rfl
    | succ j => simpa [List.set, List.getD_cons_succ] using ih j a (by simpa using h)

lemma getD_set_ne : ∀ (l : List Bool) (i j : Nat) (a : Bool), i ≠ j →
    (l.set i a).getD j false = l.getD j false := by
  intro l
  induction l with
  | nil => intro i j a _; rfl
  | cons x t ih =>
    intro i j a hne
    cases i with
    | zero =>
      cases j with
      | zero => exact absurd rfl hne
      | succ j2 => simp [List.set, List.getD_cons_succ]
    | succ i2 =>
      cases j with
      | zero => simp [List.set, List.getD_cons_zero]
      | succ j2 =>
        simpa [List.set, List.getD_cons_succ]
          using ih i2 j2 a (fun he => hne (by rw [he]))

lemma set_oob : ∀ (l : List Bool) (i : Nat) (a : Bool), l.length ≤ i → l.set i a = l := by
  intro l
  induction l with
  | nil => intro i a _; rfl
  | cons x t ih =>
    intro i a h
    cases i with
    | zero => exact absurd h (by simp)
    | succ j => simp [List.set, ih j a (by simpa using h)]

lemma getD_rep_false : ∀ (n i : Nat), (List.replicate n false).getD i false = false := by
  intro n
  induction n with
  | zero => intro i; rfl
  | succ m ih =>
    intro i
    cases i with
    | zero => rfl
    | succ j => simpa [List.replicate, List.getD_cons_succ] using ih j

/-- Effect of the `lines_to_fit` loop on one mask entry: the entry at `t`
ends up `true` exactly when `t` is a visited in-range index whose
flux/error ratio clears the threshold; otherwise it keeps its start
value. -/
lemma mask_foldl_getD (flux error : List ℚ) (snr : ℚ) :
    ∀ (js : List Nat) (mask : List Bool) (t : Nat),
      ((js.foldl
          (fun m i => if flux.getD i 0 / error.getD i 0 > snr then m.set i true else m)
          mask).getD t false)
        = if t ∈ js ∧ t < mask.length ∧ flux.getD t 0 / error.getD t 0 > snr then true
          else mask.getD t false := by
  intro js
  induction js with
  | nil =>
    intro mask t
    simp
  | cons j js ih =>
    intro mask t
    rw [List.foldl_cons, ih]
    have hlen :
        (if flux.getD j 0 / error.getD j 0 > snr then mask.set j true else mask).length
          = mask.length := by
      split
      · rw [List.length_set]
      · rfl
    by_cases ht : t = j
    · subst ht
      by_cases hq : flux.getD t 0 / error.getD t 0 > snr
      · rw [if_pos hq]
        by_cases hl : t < mask.length
        · have h1 : (mask.set t true).getD t false = true := getD_set_self mask t true hl
          rw [List.length_set, h1, ite_self,
            if_pos (⟨List.mem_cons_self t js, hl, hq⟩ :
              t ∈ t :: js ∧ t < mask.length ∧ flux.getD t 0 / error.getD t 0 > snr)]
        · rw [set_oob mask t true (Nat.le_of_not_lt hl),
            if_neg (fun h => hl h.2.1), if_neg (fun h => hl h.2.1)]
      · rw [if_neg hq, if_neg (fun h => hq h.2.2), if_neg (fun h => hq h.2.2)]
    · have hstep :
          (if flux.getD j 0 / error.getD j 0 > snr then mask.set j true else mask).getD t false
            = mask.getD t false := by
        by_cases hq : flux.getD j 0 / error.getD j 0 > snr
        · rw [if_pos hq]
          exact getD_set_ne mask j t true (fun he => ht he.symm)
        · rw [if_neg hq]
      rw [hlen, hstep]
      simp only [List.mem_cons, eq_false ht, false_or]

/-! ### Claim theorems -/

/-- C3: the `Grid` class of BPASSGrid.py cannot be instantiated at all:
the constructor's default argument `pars={['CO', 'LOGZ', 'LOGU', 'XI',
'NH']}` is a set literal containing a list, and Python evaluates default
arguments when the `def` statement executes, i.e. while the class body is
being defined; hashing the list raises `TypeError` (unhashable type), so
the class definition itself fails and every attempt to define or
construct the `Grid` model fails before any grid is loaded. -/
theorem C3_default_pars_unhashable :
    gridClassDef = .error "TypeError: unhashable type: list" := rfl

/-- C4: `Grid.__init__` never assigns its `lines` argument to
`self.lines`, yet `read_grid` (invoked unconditionally from the
constructor) iterates `self.lines`; therefore, provided the external
`PIModel` base constructor supplies a `parameters` registry but no
`lines` attribute, every construction that reaches `read_grid` (i.e.
whose abundance step and grid-file read succeed) raises `AttributeError`
on `lines`, and the `lines` constructor argument has no effect on the
result. -/
theorem C4_read_grid_attribute_error (base : List String)
    (gutkin gridFile : Except String Unit) (pars ls ls2 : List String) (recalc : Bool)
    (hpar : "parameters" ∈ base) (hlin : "lines" ∉ base)
    (habun : abundance_setup ("recalculate" :: base) gutkin recalc = .ok ())
    (hgf : gridFile = .ok ()) :
    grid_init base gutkin gridFile pars ls recalc = .error "AttributeError: lines" ∧
    grid_init base gutkin gridFile pars ls recalc
      = grid_init base gutkin gridFile pars ls2 recalc := by
  refine ⟨?_, rfl⟩
  simp [grid_init, habun, hgf, getattrE, hpar, hlin]

theorem C4_read_grid_attribute_error_witness :
    grid_init piModelInitAttrs (.ok ()) (.ok ())
        ["CO", "LOGZ", "LOGU", "XI", "NH"]
        ["OIII4959", "OIII5007", "HB", "HA", "OII3727"] false
      = .error "AttributeError: lines" ∧
    grid_init piModelInitAttrs (.ok ()) (.ok ())
        ["CO", "LOGZ", "LOGU", "XI", "NH"]
        ["OIII4959", "OIII5007", "HB", "HA", "OII3727"] false
      = grid_init piModelInitAttrs (.ok ()) (.ok ())
        ["CO", "LOGZ", "LOGU", "XI", "NH"] [] false :=
  C4_read_grid_attribute_error piModelInitAttrs (.ok ()) (.ok ())
    ["CO", "LOGZ", "LOGU", "XI", "NH"]
    ["OIII4959", "OIII5007", "HB", "HA", "OII3727"] [] false
    (by decide) (by decide) rfl rfl

/-- A concrete `Fit` state with an empty filtered line list and no
results (used by the witnesses below). -/
def emptyFitState : FitState Nat where
  lines := []
  flux := []
  error := []
  path := "./results/"
  id := 1
  v := 1
  snr := 3
  results := none
  summary := none

/-- C5: for every `Fit` whose filtered (SNR-gated) line list is empty,
`run_fit` emits a warning and returns no result (`None`) without raising,
leaves the state unchanged, and does not create the output directory. -/
theorem C5_empty_lines_run_fit (R : Type)
    (fitter : List String → List ℚ → List ℚ → String → R)
    (summarise : R → Summary) (dirs : List String) (st : FitState R)
    (h : st.lines = []) :
    run_fit fitter summarise dirs st
      = (st, dirs,
          ["No lines to fit. Consider lowering the SNR threshold in the target object or providing a list of lines to fit."],
          none) := by
  unfold run_fit
  rw [h]
  simp

theorem C5_empty_lines_run_fit_witness :
    run_fit (fun _ _ _ _ => (0 : Nat)) (fun _ => []) [] emptyFitState
      = (emptyFitState, [],
          ["No lines to fit. Consider lowering the SNR threshold in the target object or providing a list of lines to fit."],
          none) :=
  C5_empty_lines_run_fit Nat (fun _ _ _ _ => 0) (fun _ => []) [] emptyFitState rfl

/-- C10: every premature access warns and no-ops rather than throwing:
`save_results` and `show_corner` before a fit result exists (`results`
is `None`), and `filter_flux` before a usable-line mask exists
(`fit_lines` is `None`), warn, return without raising, and leave the
flux/error lists, the summary and the filesystem unchanged. -/
theorem C10_premature_access_noop (R : Type) (st : FitState R) (files : List String)
    (flux error : List ℚ) (h : st.results = none) :
    save_results st files = (st, files, ["No results to save. Please run the fit first."]) ∧
    show_corner st = (["No results to show."], false) ∧
    filter_flux none flux error
      = (flux, error, ["No lines to fit. Please check the input DataFrame and lines."]) := by
  refine ⟨?_, ?_, rfl⟩
  · unfold save_results
    rw [h]
  · unfold show_corner
    rw [h]

theorem C10_premature_access_noop_witness :
    save_results emptyFitState []
      = (emptyFitState, [], ["No results to save. Please run the fit first."]) ∧
    show_corner emptyFitState = (["No results to show."], false) ∧
    filter_flux none [1] [2]
      = ([1], [2], ["No lines to fit. Please check the input DataFrame and lines."]) :=
  C10_premature_access_noop Nat emptyFitState [] [1] [2] rfl

/-- C9: in the built full grid the two SII doublet component columns are
derived from the blended column by applying the fixed factor 2.96 twice:
for every row, `s2_6716` equals `s2_6716_6731` divided by 3.96 and
`s2_6731` equals 2.96 times `s2_6716`, so the two derived components sum
back exactly to the blended column value. -/
theorem C9_sii_components (blend : List ℚ) (i : Nat) (hi : i < blend.length) :
    (s2_6716_col blend).getD i 0 = blend.getD i 0 / mkRat 396 100 ∧
    (s2_6731_col blend).getD i 0 = mkRat 296 100 * (s2_6716_col blend).getD i 0 ∧
    (s2_6716_col blend).getD i 0 + (s2_6731_col blend).getD i 0 = blend.getD i 0 := by
  have h1 : (s2_6716_col blend).getD i 0 = blend.getD i 0 / mkRat 396 100 := by
    unfold s2_6716_col
    rw [List.getD_eq_getElem?_getD, List.getElem?_map, List.getElem?_eq_getElem hi,
      List.getD_eq_getElem?_getD, List.getElem?_eq_getElem hi]
    rfl
  have hi2 : i < (s2_6716_col blend).length := by
    unfold s2_6716_col
    simpa using hi
  have h2 : (s2_6731_col blend).getD i 0
      = (s2_6716_col blend).getD i 0 * mkRat 296 100 := by
    unfold s2_6731_col
    rw [List.getD_eq_getElem?_getD, List.getElem?_map, List.getElem?_eq_getElem hi2,
      List.getD_eq_getElem?_getD, List.getElem?_eq_getElem hi2]
    rfl
  have e1 : (mkRat 396 100 : ℚ) = 396 / 100 := by norm_num [Rat.mkRat_eq_div]
  have e2 : (mkRat 296 100 : ℚ) = 296 / 100 := by norm_num [Rat.mkRat_eq_div]
  refine ⟨h1, by rw [h2, mul_comm], ?_⟩
  rw [h1, h2, h1, e1, e2]
  field_simp
  ring

theorem C9_sii_components_witness :
    (s2_6716_col [mkRat 396 100]).getD 0 0
      = ([mkRat 396 100] : List ℚ).getD 0 0 / mkRat 396 100 ∧
    (s2_6731_col [mkRat 396 100]).getD 0 0
      = mkRat 296 100 * (s2_6716_col [mkRat 396 100]).getD 0 0 ∧
    (s2_6716_col [mkRat 396 100]).getD 0 0 + (s2_6731_col [mkRat 396 100]).getD 0 0
      = ([mkRat 396 100] : List ℚ).getD 0 0 :=
  C9_sii_components [mkRat 396 100] 0 (by simp)

/-- C1 (amended): a requested label with no exact match among the
catalog's columns and no column reaching a sequence-matching ratio above
0.8 is left unresolved by the fuzzy loop; unless it is recognized by the
OII/SII doublet substring rules (in which case the blend columns are read
instead — see the counterexample), `read_flux` then fails with the
key-not-found condition naming the offending label, raised by the
catalog flux lookup (the dedicated `ValueError` branch in the source is
dead code: nothing in the fuzzy loop raises `ValueError`). -/
theorem C1_unresolved_label_keyerror (sq : ℚ → ℚ) (df : Catalog) (l : String)
    (hnx : l ∉ catKeys df)
    (hr : ∀ k ∈ catKeys df, ratioSM k.data l.data ≤ mkRat 8 10)
    (ho : isOIIBlend l = false) (hs : isSIIBlend l = false) :
    readLine sq df l = .error ("KeyError: " ++ l) := by
  have hres : resolveLabel (catKeys df) l = l := by
    unfold resolveLabel
    rw [if_neg hnx]
    exact fuzzy_no_match (catKeys df) l hr
  simp [readLine, hres, ho, hs, colVal, lookup_none hnx]

theorem C1_unresolved_label_keyerror_witness :
    readLine (fun x => x) [("ID", (1 : ℚ)), ("HA", 2), ("HA_err_new", 1)] "XYZ9999"
      = .error ("KeyError: " ++ "XYZ9999") :=
  C1_unresolved_label_keyerror (fun x => x)
    [("ID", (1 : ℚ)), ("HA", 2), ("HA_err_new", 1)] "XYZ9999"
    (by decide) (by decide) (by decide) (by decide)

/-- The catalog row used by the C1 counterexample and the C7 witness: the
row of target 1, with the OII doublet component columns read by
`Target.read_flux` and the component values of the spec's
doublet-blending test vector (flux1=2.0, err1=0.1, flux2=3.0, err2=0.2). -/
def exCat : Catalog :=
  [("ID", 1), ("o2_3726", 2), ("o2_3726_err_new", mkRat 1 10),
   ("o2_3729", 3), ("o2_3729_err_new", mkRat 2 10)]

/-- C1 counterexample: the label "OIIblend372" has no exact match in the
catalog and no column reaches ratio 0.8, yet `read_flux` does not fail:
the label is recognized by the OII doublet rule and the blend columns
are read, returning flux 2+3 = 5 and error sq(0.1²+0.2²) = 1/20 under
`sq = id`. -/
theorem C1_counterexample :
    ("OIIblend372" ∉ catKeys exCat) ∧
    (∀ k ∈ catKeys exCat, ratioSM k.data "OIIblend372".data ≤ mkRat 8 10) ∧
    readLine (fun x => x) exCat "OIIblend372" = .ok (5, mkRat 1 20) := by
  refine ⟨by decide, by decide, ?_⟩
  have hres : resolveLabel (catKeys exCat) "OIIblend372" = "OIIblend372" := by decide
  have hoii : isOIIBlend "OIIblend372" = true := by decide
  have c1 : colVal exCat "o2_3726" = .ok 2 := rfl
  have c2 : colVal exCat "o2_3729" = .ok 3 := rfl
  have c3 : colVal exCat "o2_3726_err_new" = .ok (mkRat 1 10) := rfl
  have c4 : colVal exCat "o2_3729_err_new" = .ok (mkRat 2 10) := rfl
  simp only [readLine, hres, hoii, c1, c2, c3, c4, if_true]
  norm_num [Rat.mkRat_eq_div]

/-- C2: the claim says an unmatched line with no model line reaching
ratio 0.4 makes `translate_line_labels` fail with a not-found condition
naming the line; the code instead leaves the line silently in place —
the `except ValueError` wrapping the loop is dead code (nothing in the
loop raises `ValueError`), so the `raise ValueError(f"Line ... not found
in the Model Grid.")` the author wrote is unreachable.  At
`lines = ["XYZ9999"]`, `model.lines = ["HA", "HB"]` every ratio is below
0.4 and the list comes back unchanged, with no error. -/
theorem C2_silent_passthrough :
    (∀ k ∈ (["HA", "HB"] : List String),
      ratioSM (pyLower k).data (pyLower "XYZ9999").data < mkRat 4 10) ∧
    translate_line_labels ["HA", "HB"] ["XYZ9999"] = ["XYZ9999"] := by
  exact ⟨by decide, by decide⟩

/-- C6 (amended): label resolution returns the requested label itself
whenever it is an exact match (fuzzy matching is not attempted), in both
the catalog policy of `Target.read_flux` and the model-vocabulary policy
of `Fit.translate_line_labels`.  Otherwise, on the fitter side the LAST
candidate whose lowercased ratio to the original line reaches 0.4 is
substituted (not the best/first); on the target side the first candidate
above 0.8 replaces the label, after which later columns are compared
against the substitute (the chain continues from the match). -/
theorem C6_exact_wins_then_chain :
    (∀ (keys : List String) (l : String), l ∈ keys → resolveLabel keys l = l) ∧
    (∀ (mls : List String) (l : String), l ∈ mls → translate_one mls l = l) ∧
    (∀ (mls : List String) (l : String), l ∉ mls →
      translate_one mls l = lastQualifyingOrSelf mls l) ∧
    (∀ (keys1 keys2 : List String) (k l : String),
      (∀ k2 ∈ keys1, ratioSM k2.data l.data ≤ mkRat 8 10) →
      ratioSM k.data l.data > mkRat 8 10 →
      fuzzyResolve (keys1 ++ k :: keys2) l = fuzzyResolve keys2 k) := by
  refine ⟨?_, ?_, ?_, ?_⟩
  · intro keys l h
    unfold resolveLabel
    rw [if_pos h]
  · intro mls l h
    unfold translate_one
    rw [if_pos h]
  · intro mls l h
    unfold translate_one
    rw [if_neg h]
    exact foldl_pick_last
      (fun k => ratioSM (pyLower k).data (pyLower l).data ≥ mkRat 4 10) mls l
  · intro keys1
    induction keys1 with
    | nil =>
      intro keys2 k l _ hk
      unfold fuzzyResolve
      rw [List.nil_append, List.foldl_cons, if_pos hk]
    | cons a ks ih =>
      intro keys2 k l h hk
      have ha : ¬ (ratioSM a.data l.data > mkRat 8 10) :=
        not_lt.mpr (h a (List.mem_cons_self a ks))
      unfold fuzzyResolve
      rw [List.cons_append, List.foldl_cons, if_neg ha]
      exact ih keys2 k l (fun k2 hk2 => h k2 (List.mem_cons_of_mem a hk2)) hk

theorem C6_exact_wins_then_chain_witness :
    resolveLabel ["HA"] "HA" = "HA" ∧
    translate_one ["HA", "HB"] "HA" = "HA" ∧
    translate_one ["HA", "HB"] "ha" = lastQualifyingOrSelf ["HA", "HB"] "ha" ∧
    fuzzyResolve (["XY"] ++ "HBA" :: []) "HBA" = fuzzyResolve [] "HBA" :=
  ⟨C6_exact_wins_then_chain.1 ["HA"] "HA" (by decide),
   C6_exact_wins_then_chain.2.1 ["HA", "HB"] "HA" (by decide),
   C6_exact_wins_then_chain.2.2.1 ["HA", "HB"] "ha" (by decide),
   C6_exact_wins_then_chain.2.2.2 ["XY"] [] "HBA" "HBA" (by decide) (by decide)⟩

/-- C6 counterexample: requesting "ha" against the model vocabulary
["HA", "HB"]: "HA" matches perfectly (lowercased ratio 1) and comes
first, "HB" only reaches ratio 1/2, yet `translate_line_labels`
substitutes "HB" — the last candidate clearing the 0.4 threshold — so
resolution takes neither the best nor the first qualifying match. -/
theorem C6_counterexample :
    ("ha" ∉ (["HA", "HB"] : List String)) ∧
    ratioSM (pyLower "HA").data (pyLower "ha").data = 1 ∧
    ratioSM (pyLower "HB").data (pyLower "ha").data = mkRat 1 2 ∧
    mkRat 1 2 < 1 ∧
    translate_one ["HA", "HB"] "ha" = "HB" := by
  exact ⟨by decide, by decide, by decide, by decide, by decide⟩

/-- C7: a requested label recognized by the OII-3727 rule (after
resolution) yields as flux the sum of the two catalog component fluxes
and as error `np.sqrt` of the sum of the squared component errors; with
the spec's component values the real square root satisfies
sqrt(0.1²+0.2²) = sqrt(1/20) ≈ 0.2236 and the flux sum is 2+3 = 5. -/
theorem C7_oii_doublet_blend (sq : ℚ → ℚ) (df : Catalog) (l : String) (f1 f2 e1 e2 : ℚ)
    (hl : isOIIBlend (resolveLabel (catKeys df) l) = true)
    (h1 : colVal df "o2_3726" = .ok f1) (h2 : colVal df "o2_3729" = .ok f2)
    (h3 : colVal df "o2_3726_err_new" = .ok e1)
    (h4 : colVal df "o2_3729_err_new" = .ok e2) :
    readLine sq df l = .ok (f1 + f2, sq (e1 ^ 2 + e2 ^ 2)) ∧
    (2 : ℝ) + 3 = 5 ∧
    (0.2236 : ℝ) < Real.sqrt ((1 / 10) ^ 2 + (2 / 10) ^ 2) ∧
    Real.sqrt ((1 / 10) ^ 2 + (2 / 10) ^ 2) < 0.2237 := by
  refine ⟨?_, by norm_num, ?_, ?_⟩
  · simp [readLine, hl, h1, h2, h3, h4]
  · rw [show ((1 : ℝ) / 10) ^ 2 + ((2 : ℝ) / 10) ^ 2 = 1 / 20 by norm_num]
    rw [show (0.2236 : ℝ) = 2236 / 10000 by norm_num]
    rw [Real.lt_sqrt (by norm_num)]
    norm_num
  · rw [show ((1 : ℝ) / 10) ^ 2 + ((2 : ℝ) / 10) ^ 2 = 1 / 20 by norm_num]
    rw [show (0.2237 : ℝ) = 2237 / 10000 by norm_num]
    rw [Real.sqrt_lt' (by norm_num)]
    norm_num

theorem C7_oii_doublet_blend_witness :
    readLine (fun x => x) exCat "OII3727"
      = .ok (2 + 3, (fun x => x) (mkRat 1 10 ^ 2 + mkRat 2 10 ^ 2)) ∧
    (2 : ℝ) + 3 = 5 ∧
    (0.2236 : ℝ) < Real.sqrt ((1 / 10) ^ 2 + (2 / 10) ^ 2) ∧
    Real.sqrt ((1 / 10) ^ 2 + (2 / 10) ^ 2) < 0.2237 :=
  C7_oii_doublet_blend (fun x => x) exCat "OII3727" 2 3 (mkRat 1 10) (mkRat 2 10)
    (by decide) rfl rfl rfl rfl

/-- C8: SNR gating marks a line usable exactly when flux/error is
strictly greater than the threshold (the hypothesis that the error entry
is non-zero marks the modelling boundary: rational division by zero and
numpy-float division by zero differ). -/
theorem C8_snr_strict_gate (n : Nat) (flux error : List ℚ) (snr : ℚ) (i : Nat)
    (hi : i < n) (he : error.getD i 0 ≠ 0) :
    (lines_to_fit n flux error snr).getD i false
      = decide (flux.getD i 0 / error.getD i 0 > snr) := by
  unfold lines_to_fit
  rw [mask_foldl_getD]
  have hmem : i ∈ List.range n := List.mem_range.mpr hi
  have hlen : i < (List.replicate n false).length := by simpa using hi
  by_cases hc : flux.getD i 0 / error.getD i 0 > snr
  · rw [if_pos ⟨hmem, hlen, hc⟩, decide_eq_true hc]
  · rw [if_neg (fun hcon => hc hcon.2.2), decide_eq_false hc, getD_rep_false]

theorem C8_snr_strict_gate_witness :
    (lines_to_fit 2 [9, 9.01] [3, 3] 3).getD 0 false = false ∧
    (lines_to_fit 2 [9, 9.01] [3, 3] 3).getD 1 false = true := by
  constructor
  · rw [C8_snr_strict_gate 2 [9, 9.01] [3, 3] 3 0 (by norm_num)
      (by norm_num [List.getD_cons_zero])]
    simp only [List.getD_cons_zero]
    rw [decide_eq_false (by norm_num)]
  · rw [C8_snr_strict_gate 2 [9, 9.01] [3, 3] 3 1 (by norm_num)
      (by norm_num [List.getD_cons_succ, List.getD_cons_zero])]
    simp only [List.getD_cons_succ, List.getD_cons_zero]
    rw [decide_eq_true (by norm_num)]

end BPASSFit

